import Mathlib

/-!
Verification of the PBaaS notarization core (src/pbaas/notarization.cpp).

This file shallowly embeds the notarization data model and the algorithms of
the source file as executable Lean definitions, and proves or refutes the
frozen claims about them.  External collaborators (wallet key store, chain
index, identity lookup, signature recovery, the reserve-transfer import
engine) are passed in as explicit function parameters, mirroring the
interfaces the source consumes.  Machine integers are modelled as Nat or Int;
uint32 wraparound is made explicit where it matters.
-/

set_option maxRecDepth 4000

/-! ## Basic aliases and constants -/

/-- Raw byte strings (e.g. serialized payloads, compact signatures). -/
abbrev Bytes := List Nat

/-- Hash values (uint256 in the source). A value of 0 models a null uint256. -/
abbrev HashVal := Nat

/-- Eval codes of the condition scripts used by the notarization core.
Concrete numbers are arbitrary but distinct, matching the source's use of
distinct enum constants. -/
def EVAL_NONE : Nat := 0
def EVAL_EARNEDNOTARIZATION : Nat := 14
def EVAL_ACCEPTEDNOTARIZATION : Nat := 15
def EVAL_FINALIZE_NOTARIZATION : Nat := 16
def EVAL_NOTARY_EVIDENCE : Nat := 17
def EVAL_FINALIZE_EXPORT : Nat := 18

/-- Destination (address) type tags of COptCCParams. Distinct constants. -/
def ADDRTYPE_PK : Nat := 1
def ADDRTYPE_PKH : Nat := 2
def ADDRTYPE_ID : Nat := 4

/-- Version constants shared by the embedded objects: 0 is the invalid
version, 1 the current valid version. -/
def VERSION_INVALID : Nat := 0
def VERSION_CURRENT : Nat := 1

/-- Proof root types. -/
def PROOFROOT_TYPE_PBAAS : Nat := 1
def PROOFROOT_TYPE_ETHEREUM : Nat := 2

/-- Notarization protocol selector values of a currency definition. -/
def NOTARIZATION_AUTO : Nat := 1
def NOTARIZATION_NOTARY_CONFIRM : Nat := 2
def NOTARIZATION_NOTARY_CHAINID : Nat := 3

/-- Purpose keys scoping notary signatures (NotaryConfirmedKey and
NotaryRejectedKey in the source); distinct constants. -/
def NotaryConfirmedKey : Nat := 101
def NotaryRejectedKey : Nat := 102

/-- uint32 predecessor with wraparound, modelling `h - 1` on a uint32. -/
def pred32 (n : Nat) : Nat := (n + 4294967295) % 4294967296

/-! ## Association-list maps (std::map with uint160 keys) -/

/-- Look up a key in an association list (std::map::find). -/
def lookupA {α : Type} (m : List (Nat × α)) (k : Nat) : Option α :=
  (m.find? (fun p => p.1 == k)).map (·.2)

/-- Key membership (std::map::count != 0). -/
def containsA {α : Type} (m : List (Nat × α)) (k : Nat) : Bool :=
  (m.find? (fun p => p.1 == k)).isSome

/-- std::map::insert semantics: inserting an existing key is a no-op. -/
def insertA {α : Type} (m : List (Nat × α)) (k : Nat) (v : α) : List (Nat × α) :=
  if containsA m k then m else m ++ [(k, v)]

/-! ## Currency value maps (CCurrencyValueMap)

The CCurrencyValueMap class itself lives outside src/.  Modelled from the
spec: a map from currency id to signed amount, with canonicalization dropping
zero entries, pointwise addition, and the comparisons the notarization logic
needs ("strictly below" a minimum, "exceeding" a maximum cap). -/

/-- A currency value map: association list currency id to amount. -/
abbrev CCurrencyValueMap := List (Nat × Int)

/-- Amount recorded for a currency (0 when absent). -/
def cvLookup (m : CCurrencyValueMap) (k : Nat) : Int :=
  ((List.find? (fun p => p.1 == k) m).map (·.2)).getD 0

/-- The distinct currency ids mentioned by two maps. -/
def cvKeys (a b : CCurrencyValueMap) : List Nat :=
  ((List.map (·.1) a) ++ (List.map (·.1) b)).dedup

/-- Constructor CCurrencyValueMap(currencies, amounts): pair the lists. -/
def cvFrom (keys : List Nat) (vals : List Int) : CCurrencyValueMap :=
  keys.zip vals

/-- Pointwise addition of two currency value maps. -/
def cvAdd (a b : CCurrencyValueMap) : CCurrencyValueMap :=
  (cvKeys a b).map (fun k => (k, cvLookup a k + cvLookup b k))

/-- Modelled from the spec: CanonicalMap drops zero-valued entries, leaving
one entry per currency with a nonzero amount. -/
def cvCanonical (m : CCurrencyValueMap) : CCurrencyValueMap :=
  (List.map (·.1) m).dedup.filterMap
    (fun k => if cvLookup m k = 0 then none else some (k, cvLookup m k))

/-- Modelled from the spec: a map is strictly below another when it is
pointwise at most the other and strictly less in at least one currency. -/
def cvLT (a b : CCurrencyValueMap) : Bool :=
  ((cvKeys a b).all fun k => decide (cvLookup a k ≤ cvLookup b k)) &&
  ((cvKeys a b).any fun k => decide (cvLookup a k < cvLookup b k))

/-- Modelled from the spec: a map exceeds a cap when it is strictly greater
than the cap in at least one currency. -/
def cvExceeds (a b : CCurrencyValueMap) : Bool :=
  (cvKeys a b).any fun k => decide (cvLookup b k < cvLookup a k)

/-! ## Transactions and condition scripts -/

/-- Decoded parameters of a pay-to-crypto-condition script (COptCCParams). -/
structure COptCCParams where
  isValid : Bool
  version : Nat
  evalCode : Nat
  vData : List Bytes
deriving DecidableEq, Inhabited

/-- COptCCParams version constant used by the verification paths. -/
def COPTCC_VERSION_V3 : Nat := 3

/-- A transaction output script: either it parses as a crypto-condition
(IsPayToCryptoCondition succeeds, yielding the params) or it does not. -/
abbrev Script := Option COptCCParams

structure CTxOut where
  scriptPubKey : Script
  nValue : Int
deriving DecidableEq, Inhabited

structure CTransaction where
  txid : Nat
  vout : List CTxOut
deriving DecidableEq, Inhabited

/-- A reference to a transaction output (CUTXORef): txid hash plus index.
A hash of 0 models a null uint256. -/
structure CUTXORef where
  hash : Nat
  n : Nat
deriving DecidableEq, Inhabited

/-- A destination address: type tag plus the 160-bit id it hashes to. -/
structure CTxDestination where
  which : Nat
  destID : Nat
deriving DecidableEq, Inhabited

/-! ## Identities and identity signatures -/

/-- The slice of CIdentity the notarization logic reads. -/
structure CIdentity where
  isValid : Bool
  isValidUnrevoked : Bool
  primaryAddresses : List CTxDestination
  minSigs : Nat
deriving DecidableEq, Inhabited

/-- One identity's signature contribution (CIdentitySignature): the set of
raw compact signatures it carries. -/
structure CIdentitySignature where
  signatures : List Bytes
deriving DecidableEq, Inhabited

/-- Signature verification outcomes (ESignatureVerification).  `incomplete`
is SIGNATURE_PARTIAL in the source. -/
inductive SigVer where
  | invalid
  | incomplete
  | complete
deriving DecidableEq, Inhabited

/-! ## Proof roots (CProofRoot)

The CProofRoot struct is declared outside src/.  Modelled from the spec:
systemID, rootHeight, stateRoot (MMR root), blockHash, compactPower and a
type tag, valid only when carrying a valid version. -/

structure CProofRoot where
  version : Nat
  type : Nat
  systemID : Nat
  rootHeight : Nat
  stateRoot : Nat
  blockHash : Nat
  compactPower : Nat
deriving DecidableEq, Inhabited

def CProofRoot.isValid (r : CProofRoot) : Bool :=
  r.version != VERSION_INVALID

/-- The default-constructed, invalid/empty proof root (CProofRoot()). -/
def invalidProofRoot : CProofRoot :=
  { version := VERSION_INVALID, type := PROOFROOT_TYPE_PBAAS, systemID := 0,
    rootHeight := 0, stateRoot := 0, blockHash := 0, compactPower := 0 }

/-- The active chain as the notarization core reads it: its id, current
height, and per-height block hash, compact chain power, and the MMR root
computed over exactly n elements (mmv.resize(n); mmv.GetRoot()). -/
structure ChainView where
  selfID : Nat
  height : Nat
  blockHashAt : Nat → Nat
  compactPowerAt : Nat → Nat
  mmrRootAt : Nat → Nat

/-- CProofRoot::GetProofRoot: empty/invalid root above the tip, otherwise the
MMR root over exactly blockHeight elements packaged with the block hash and
compact chain power at that height. -/
def CProofRoot.getProofRoot (chain : ChainView) (blockHeight : Nat) : CProofRoot :=
  if blockHeight > chain.height then
    invalidProofRoot
  else
    { version := VERSION_CURRENT, type := PROOFROOT_TYPE_PBAAS,
      systemID := chain.selfID, rootHeight := blockHeight,
      stateRoot := chain.mmrRootAt blockHeight,
      blockHash := chain.blockHashAt blockHeight,
      compactPower := chain.compactPowerAt blockHeight }

/-! ## Notary evidence (CNotaryEvidence) and its signing operations -/

/-- CNotaryEvidence: identity signatures attesting confirm/reject of the
referenced output.  Partial-transaction proofs are not consumed by the
verified operations and are omitted. -/
structure CNotaryEvidence where
  version : Nat
  type : Nat
  systemID : Nat
  output : CUTXORef
  confirmed : Bool
  signatures : List (Nat × CIdentitySignature)
deriving DecidableEq, Inhabited

def CNotaryEvidence.isValid (ev : CNotaryEvidence) : Bool :=
  ev.version != VERSION_INVALID

/-- The wallet key store capability consumed by the signing operations:
CKeyStore::GetIdentity returns success plus a (map key, identity) pair; on
failure the pair is default-constructed (its CanSign() is then testable). -/
structure KeyStoreView where
  getIdentity : Nat → Nat → Bool × (Bool × Nat)

/-- Modelled from the spec: CIdentitySignature::NewSignature (declared
outside src/) is the external identity-signing capability "sign with
identity X, return signature or failure"; it receives the identity payload,
the purpose key, system, height and object hash and yields a verification
outcome together with the produced signature object. -/
def NewSignatureOracle := Nat → Nat → Nat → Nat → Nat → SigVer × CIdentitySignature

/-- CNotaryEvidence::SignConfirmed.  The hash of the attested payload is
taken through the byte-hash oracle (CMMRNode hash writer). -/
def CNotaryEvidence.signConfirmed (ev : CNotaryEvidence) (ks : KeyStoreView)
    (newSignature : NewSignatureOracle) (hashBytes : Bytes → Nat)
    (txToConfirm : CTransaction) (signWithID : Nat) (height : Nat) :
    SigVer × CNotaryEvidence :=
  if ev.signatures.length != 0 && !ev.confirmed then
    (SigVer.invalid, ev)
  else
    let keyAndIdentity := ks.getIdentity signWithID height
    if !keyAndIdentity.1 && keyAndIdentity.2.1 then
      (SigVer.invalid, ev)
    else
      match (ev.output.n < txToConfirm.vout.length : Bool),
            txToConfirm.vout.getD ev.output.n default |>.scriptPubKey with
      | true, some p =>
        if txToConfirm.txid != ev.output.hash ||
           p.vData.length == 0 ||
           (p.vData.getD 0 default).length == 0 ||
           p.evalCode == EVAL_NONE then
          (SigVer.invalid, ev)
        else
          let objHash := hashBytes (p.vData.getD 0 default)
          let res := newSignature keyAndIdentity.2.2 NotaryConfirmedKey ev.systemID height objHash
          if res.1 != SigVer.invalid then
            (res.1, { ev with signatures := insertA ev.signatures signWithID res.2 })
          else
            (res.1, ev)
      | _, _ => (SigVer.invalid, ev)

/-- CNotaryEvidence::SignRejected: symmetric to SignConfirmed with the
opposite polarity guard and the rejected purpose key. -/
def CNotaryEvidence.signRejected (ev : CNotaryEvidence) (ks : KeyStoreView)
    (newSignature : NewSignatureOracle) (hashBytes : Bytes → Nat)
    (txToConfirm : CTransaction) (signWithID : Nat) (height : Nat) :
    SigVer × CNotaryEvidence :=
  if ev.signatures.length != 0 && ev.confirmed then
    (SigVer.invalid, ev)
  else
    let keyAndIdentity := ks.getIdentity signWithID height
    if !keyAndIdentity.1 && keyAndIdentity.2.1 then
      (SigVer.invalid, ev)
    else
      match (ev.output.n < txToConfirm.vout.length : Bool),
            txToConfirm.vout.getD ev.output.n default |>.scriptPubKey with
      | true, some p =>
        if txToConfirm.txid != ev.output.hash ||
           p.vData.length == 0 ||
           (p.vData.getD 0 default).length == 0 ||
           p.evalCode == EVAL_NONE then
          (SigVer.invalid, ev)
        else
          let objHash := hashBytes (p.vData.getD 0 default)
          let res := newSignature keyAndIdentity.2.2 NotaryRejectedKey ev.systemID height objHash
          if res.1 != SigVer.invalid then
            (res.1, { ev with signatures := insertA ev.signatures signWithID res.2 })
          else
            (res.1, ev)
      | _, _ => (SigVer.invalid, ev)

/-! ## Currency definitions and currency state -/

/-- The slice of CCurrencyDefinition the notarization logic reads. -/
structure CCurrencyDefinition where
  isValid : Bool
  idOf : Nat
  systemID : Nat
  launchSystemID : Nat
  startBlock : Nat
  currencies : List Nat
  minPreconvert : List Int
  maxPreconvert : List Int
  contributions : List Int
  notaries : List Nat
  minNotariesConfirm : Nat
  notarizationProtocol : Nat
  isFractional : Bool
deriving DecidableEq, Inhabited

/-- The slice of CCoinbaseCurrencyState the notarization logic reads and
writes.  The flag setters of the source (SetPrelaunch, SetLaunchClear,
SetRefunding, SetLaunchConfirmed, SetLaunchCompleteMarker) are record
updates of the corresponding flags. -/
structure CCoinbaseCurrencyState where
  isValid : Bool
  reserves : List Int
  supply : Int
  prelaunch : Bool
  launchClear : Bool
  launchConfirmed : Bool
  launchCompleteMarker : Bool
  refunding : Bool
  conversionPrice : List Int
  viaConversionPrice : List Int
deriving DecidableEq, Inhabited

/-! ## The notarization record (CPBaaSNotarization) -/

structure CPBaaSNotarization where
  nVersion : Nat
  isDefinitionNotarization : Bool
  isBlockOneNotarization : Bool
  preLaunch : Bool
  launchCleared : Bool
  refunding : Bool
  launchConfirmed : Bool
  isMirror : Bool
  sameChain : Bool
  currencyID : Nat
  notarizationHeight : Nat
  currencyState : CCoinbaseCurrencyState
  prevNotarization : CUTXORef
  hashPrevNotarization : Nat
  prevHeight : Nat
  currencyStates : List (Nat × CCoinbaseCurrencyState)
  proofRoots : List (Nat × CProofRoot)
deriving DecidableEq, Inhabited

def CPBaaSNotarization.isValid (n : CPBaaSNotarization) : Bool :=
  n.nVersion != VERSION_INVALID

/-- Whether a transaction output decodes as an earned or accepted
notarization output (the qualification test of the transaction-decoding
constructor of CPBaaSNotarization). -/
def isNotarizationOut (o : CTxOut) : Bool :=
  match o.scriptPubKey with
  | some p => p.isValid &&
      (p.evalCode == EVAL_ACCEPTEDNOTARIZATION || p.evalCode == EVAL_EARNEDNOTARIZATION) &&
      p.vData.length != 0
  | none => false

/-- The zero-initialized CPBaaSNotarization the transaction constructor
starts from (the source constructor's member default values). -/
def emptyNotarization : CPBaaSNotarization :=
  { nVersion := VERSION_INVALID, isDefinitionNotarization := false,
    isBlockOneNotarization := false, preLaunch := false, launchCleared := false,
    refunding := false, launchConfirmed := false, isMirror := false,
    sameChain := false, currencyID := 0, notarizationHeight := 0,
    currencyState := default, prevNotarization := ⟨0, 0⟩,
    hashPrevNotarization := 0, prevHeight := 0, currencyStates := [],
    proofRoots := [] }

/-- Loop body of CPBaaSNotarization::CPBaaSNotarization(const CTransaction&,
int32_t*): scan the outputs; deserialize the first qualifying one; a second
qualifying output invalidates the object, clears its proof roots and stops
the scan.  `decode` is the external deserializer (::FromVector). -/
def notarizationFromTxLoop (decode : Bytes → CPBaaSNotarization) (i : Nat)
    (outs : List CTxOut) (found : Bool) (cur : CPBaaSNotarization)
    (outIdx : Option Nat) : CPBaaSNotarization × Option Nat :=
  match outs with
  | [] => (cur, outIdx)
  | o :: rest =>
    if isNotarizationOut o then
      if found then
        ({ cur with nVersion := VERSION_INVALID, proofRoots := [] }, outIdx)
      else
        notarizationFromTxLoop decode (i + 1) rest true
          (decode ((match o.scriptPubKey with
                    | some p => p.vData
                    | none => []).getD 0 default)) (some i)
    else
      notarizationFromTxLoop decode (i + 1) rest found cur outIdx

/-- CPBaaSNotarization::CPBaaSNotarization(const CTransaction &, int32_t *). -/
def CPBaaSNotarization.fromTransaction (decode : Bytes → CPBaaSNotarization)
    (tx : CTransaction) : CPBaaSNotarization × Option Nat :=
  notarizationFromTxLoop decode 0 tx.vout false emptyNotarization none

/-! ## Object finalization (CObjectFinalization) -/

def FINALIZE_NOTARIZATION : Nat := 2
def FINALIZE_EXPORT : Nat := 4

structure CObjectFinalization where
  version : Nat
  finalizationType : Nat
  currencyID : Nat
  output : CUTXORef
  confirmed : Bool
  rejected : Bool
  evidenceOutputs : List Nat
  evidenceInputs : List Nat
  minFinalizationHeight : Nat
deriving DecidableEq, Inhabited

/-- Whether a transaction output qualifies as a finalize-notarization or
finalize-export output for the transaction-decoding constructor of
CObjectFinalization (only the eval code is examined). -/
def isFinalizationOut (o : CTxOut) : Bool :=
  match o.scriptPubKey with
  | some p => p.isValid &&
      (p.evalCode == EVAL_FINALIZE_NOTARIZATION || p.evalCode == EVAL_FINALIZE_EXPORT)
  | none => false

/-- Loop of CObjectFinalization::CObjectFinalization(const CTransaction &,
uint32_t *, int32_t *): record the index and eval code of the single
qualifying output; a second qualifying output invalidates the object and
resets the reported index to -1 (modelled as `none`). -/
def finalizationFromTxLoop (i : Nat) (outs : List CTxOut)
    (version : Nat) (ecode : Option Nat) (outIdx : Option Nat) :
    Nat × Option Nat × Option Nat :=
  match outs with
  | [] => (version, ecode, outIdx)
  | o :: rest =>
    if isFinalizationOut o then
      if outIdx.isSome then
        (VERSION_INVALID, ecode, none)
      else
        finalizationFromTxLoop (i + 1) rest version
          (some (match o.scriptPubKey with | some p => p.evalCode | none => 0))
          (some i)
    else
      finalizationFromTxLoop (i + 1) rest version ecode outIdx

/-- CObjectFinalization::CObjectFinalization(const CTransaction &, uint32_t *,
int32_t *): returns (version, found eval code, finalization output index).
`v0` is the default version from the class's member defaults, which live
outside src/ and are left abstract. -/
def CObjectFinalization.fromTransaction (v0 : Nat) (tx : CTransaction) :
    Nat × Option Nat × Option Nat :=
  finalizationFromTxLoop 0 tx.vout v0 none none

/-! ## CObjectFinalization::VerifyOutputSignature -/

/-- External collaborators consumed by the signature verification paths:
currency definition lookup, identity lookup at a height, the condition-id
derivation, the identity signature hash, compact-signature pubkey recovery
(mapped to its address id), and the byte hash writer. -/
structure VerifySigEnv where
  getCurrencyDefinition : Nat → Option CCurrencyDefinition
  lookupIdentityAt : Nat → Nat → CIdentity
  conditionID : Nat → Nat → Nat → Nat
  idSigHash : Nat → Nat → Nat → Nat → Nat → Nat
  recoverCompact : Nat → Bytes → Nat
  hashBytes : Bytes → Nat

/-- The primary-address collection loop of the source, kept faithful to its
guard `oneAddress.which() != ADDRTYPE_PK || oneAddress.which() != ADDRTYPE_PKH`
(a disjunction, exactly as written); `none` models the hard
SIGNATURE_INVALID return. -/
def addIdAddresses (addrs : List CTxDestination) (acc : List Nat) : Option (List Nat) :=
  match addrs with
  | [] => some acc
  | a :: rest =>
    if a.which != ADDRTYPE_PK || a.which != ADDRTYPE_PKH then
      none
    else
      addIdAddresses rest (acc.insert a.destID)

/-- The raw-signature verification loop of VerifyOutputSignature: recover
each compact signature, require membership in the identity's primary-address
id set, and collect the distinct recovered address ids. -/
def verifySigList (recover : Nat → Bytes → Nat) (sigHash : Nat)
    (idAddresses : List Nat) (raw : List Bytes) (acc : List Nat) : Option (List Nat) :=
  match raw with
  | [] => some acc
  | s :: rest =>
    let pkID := recover sigHash s
    if !(idAddresses.contains pkID) then
      none
    else
      verifySigList recover sigHash idAddresses rest (acc.insert pkID)

/-- The per-notary loop of VerifyOutputSignature: for every authorized notary
carrying a signature, classify it as completed or merely started (PARTIAL),
propagating the hard-failure cases as `none`. -/
def verifyNotariesLoop (env : VerifySigEnv) (sigs : List (Nat × CIdentitySignature))
    (vdxf currencyID height msgHash : Nat) (notaries : List Nat)
    (completed incomplete : List Nat) : Option (List Nat × List Nat) :=
  match notaries with
  | [] => some (completed, incomplete)
  | nt :: rest =>
    match lookupA sigs nt with
    | none => verifyNotariesLoop env sigs vdxf currencyID height msgHash rest completed incomplete
    | some idSig =>
      let sigHash := env.idSigHash vdxf currencyID height nt msgHash
      let signer := env.lookupIdentityAt nt height
      if signer.isValid then
        match addIdAddresses signer.primaryAddresses [] with
        | none => none
        | some idAddresses =>
          match verifySigList env.recoverCompact sigHash idAddresses idSig.signatures [] with
          | none => none
          | some verified =>
            if signer.minSigs ≤ verified.length then
              verifyNotariesLoop env sigs vdxf currencyID height msgHash rest (completed.insert nt) incomplete
            else
              verifyNotariesLoop env sigs vdxf currencyID height msgHash rest completed (incomplete.insert nt)
      else
        none

/-- CObjectFinalization::VerifyOutputSignature(initialTx, signature, p,
height): verify the notary signatures of the evidence against the payload of
the condition params `p`, aggregating per-identity outcomes into the
tri-state result. -/
def CObjectFinalization.verifyOutputSignature (env : VerifySigEnv)
    (of : CObjectFinalization) (initialTx : CTransaction)
    (signature : CNotaryEvidence) (p : COptCCParams) (height : Nat) : SigVer :=
  match env.getCurrencyDefinition of.currencyID with
  | some curDef =>
    if p.isValid && COPTCC_VERSION_V3 ≤ p.version && p.vData.length != 0 && curDef.isValid then
      let txId := if of.output.hash == 0 then initialTx.txid else of.output.hash
      let vdxf := env.conditionID of.currencyID txId of.output.n
      let msgHash := env.hashBytes (p.vData.getD 0 default)
      match verifyNotariesLoop env signature.signatures vdxf of.currencyID height msgHash
            curDef.notaries [] [] with
      | none => SigVer.invalid
      | some (completed, incomplete) =>
        if incomplete.length + completed.length < signature.signatures.length then
          SigVer.invalid
        else if curDef.minNotariesConfirm ≤ completed.length then
          SigVer.complete
        else if completed.length != 0 || incomplete.length != 0 then
          SigVer.incomplete
        else
          SigVer.invalid
    else
      SigVer.invalid
  | none => SigVer.invalid

/-! ## ValidateNotarizationEvidence -/

/-- External collaborators of ValidateNotarizationEvidence: the payload
deserializers, the currency cache, transaction fetch, identity lookup, and
the hashing and recovery collaborators. -/
structure ValidateEvidenceEnv where
  decodeEvidence : Bytes → CNotaryEvidence
  decodeFinalization : Bytes → CObjectFinalization
  decodeNotarization : Bytes → CPBaaSNotarization
  getCachedCurrency : Nat → CCurrencyDefinition
  getTransaction : Nat → Option CTransaction
  lookupIdentityAt : Nat → Nat → CIdentity
  conditionID : Nat → Nat → Nat → Nat
  idSigHash : Nat → Nat → Nat → Nat → Nat → Nat
  recoverCompact : Nat → Bytes → Nat
  hashBytes : Bytes → Nat

/-- The evidence → finalization → notarization hop chain of
ValidateNotarizationEvidence, embedded with the exact short-circuit and
conditional-operator structure of the source condition (the two
`cond ? (nTx = tx), true : ...` arms short-circuit the decoding of the
remaining hops whenever the respective output reference is null, and a
finalization hop that fails late still leaves its assignments visible to the
notarization hop).  Returns the condition params, finalization and
notarization txid in scope at the block entry, or `none` when the whole
condition is false. -/
def evidenceHops (env : ValidateEvidenceEnv) (notarySig : CNotaryEvidence)
    (p0 : COptCCParams) : Option (COptCCParams × CObjectFinalization × Nat) :=
  if notarySig.output.hash == 0 then
    some (p0, default, 0)
  else
    let stageB : Bool × COptCCParams × CObjectFinalization :=
      match env.getTransaction notarySig.output.hash with
      | none => (false, p0, default)
      | some nTx1 =>
        if notarySig.output.n < nTx1.vout.length then
          match (nTx1.vout.getD notarySig.output.n default).scriptPubKey with
          | some p1 =>
            if p1.isValid && p1.evalCode == EVAL_FINALIZE_NOTARIZATION &&
               p1.vData.length != 0 then
              let of1 := env.decodeFinalization (p1.vData.getD 0 default)
              (of1.version != VERSION_INVALID &&
                 of1.finalizationType == FINALIZE_NOTARIZATION, p1, of1)
            else
              (false, p1, default)
          | none => (false, p0, default)
        else
          (false, p0, default)
    let pB := stageB.2.1
    let ofB := stageB.2.2
    if stageB.1 && ofB.output.hash == 0 then
      some (pB, ofB, 0)
    else
      match env.getTransaction ofB.output.hash with
      | none => none
      | some nTx2 =>
        if nTx2.txid != 0 && ofB.output.n < nTx2.vout.length then
          match (nTx2.vout.getD ofB.output.n default).scriptPubKey with
          | some p2 =>
            if p2.isValid &&
               (p2.evalCode == EVAL_EARNEDNOTARIZATION ||
                p2.evalCode == EVAL_ACCEPTEDNOTARIZATION) &&
               p2.vData.length != 0 then
              let nzn := env.decodeNotarization (p2.vData.getD 0 default)
              if nzn.isValid && containsA nzn.proofRoots notarySig.systemID then
                some (p2, ofB, nTx2.txid)
              else
                none
            else
              none
          | none => none
        else
          none

/-- The raw-signature loop of ValidateNotarizationEvidence: additionally to
membership in the primary-address set, duplicate key use within one
identity's signature set is a hard error. -/
def validateSigList (recover : Nat → Bytes → Nat) (sigHash : Nat)
    (idAddresses : List Nat) (raw : List Bytes) (acc : List Nat) :
    Except String (List Nat) :=
  match raw with
  | [] => .ok acc
  | s :: rest =>
    let pkID := recover sigHash s
    if !(idAddresses.contains pkID) then
      .error "Mismatched pubkey and ID in signature"
    else if acc.contains pkID then
      .error "Duplicate key use in ID signature"
    else
      validateSigList recover sigHash idAddresses rest (acc.insert pkID)

/-- The per-notary loop of ValidateNotarizationEvidence: every currently
authorized notary must be present in the signature map with enough verified
signatures; the confirmed-unit count is threaded through so the out-param
value is visible on the error paths as well. -/
def validateNotaryLoop (env : ValidateEvidenceEnv)
    (sigs : List (Nat × CIdentitySignature)) (vdxf ofCurrencyID height msgHash : Nat)
    (notaries : List Nat) (count : Nat) : Option String × Nat :=
  match notaries with
  | [] => (none, count)
  | nt :: rest =>
    match lookupA sigs nt with
    | some sigIt =>
      let signer := env.lookupIdentityAt nt height
      let sigHash := env.idSigHash vdxf ofCurrencyID height nt msgHash
      if signer.isValid then
        match addIdAddresses signer.primaryAddresses [] with
        | none => (some "Unsupported signature type", count)
        | some idAddresses =>
          match validateSigList env.recoverCompact sigHash idAddresses sigIt.signatures [] with
          | .error e => (some e, count)
          | .ok verified =>
            if signer.minSigs ≤ verified.length then
              validateNotaryLoop env sigs vdxf ofCurrencyID height msgHash rest (count + 1)
            else
              (some "Insufficient signatures on behalf of ID", count)
      else
        (some "Invalid notary identity or corrupt local state", count)
    | none => (some "Unauthorized notary", count)

/-- ValidateNotarizationEvidence(tx, outNum, state, height, confirmedCount,
provenFalse): returns the error (if any) together with the value left in the
confirmed-unit count out-parameter. -/
def validateNotarizationEvidence (env : ValidateEvidenceEnv) (tx : CTransaction)
    (outNum : Nat) (height : Nat) : Option String × Nat :=
  match (tx.vout.getD outNum default).scriptPubKey with
  | some p =>
    let notarySig := env.decodeEvidence (p.vData.getD 0 default)
    let curDef := env.getCachedCurrency notarySig.systemID
    if p.isValid && COPTCC_VERSION_V3 ≤ p.version && p.vData.length != 0 &&
       notarySig.isValid && curDef.isValid then
      match evidenceHops env notarySig p with
      | none => (some "Invalid notarization reference", 0)
      | some (pIn, ofIn, notTxId) =>
        let vdxf := env.conditionID notarySig.systemID notTxId ofIn.output.n
        let msgHash := env.hashBytes (pIn.vData.getD 0 default)
        match validateNotaryLoop env notarySig.signatures vdxf ofIn.currencyID height
              msgHash curDef.notaries 0 with
        | (some e, c) => (some e, c)
        | (none, c) =>
          if c == 0 then (some "No evidence present", c) else (none, c)
    else
      (some "Invalid or non-evidence output", 0)
  | none => (some "Invalid or non-evidence output", 0)

/-! ## Chain notarization data and CreateAcceptedNotarization -/

/-- CChainNotarizationData: the fork-aware notarization history of a
currency. -/
structure CChainNotarizationData where
  version : Nat
  vtx : List (CUTXORef × CPBaaSNotarization)
  forks : List (List Int)
  lastConfirmed : Int
  bestChain : Int
deriving Inhabited

/-- Modelled from the spec: IsConfirmed of CChainNotarizationData (declared
outside src/) holds when a last confirmed entry index is recorded. -/
def CChainNotarizationData.isConfirmed (cnd : CChainNotarizationData) : Bool :=
  decide (0 ≤ cnd.lastConfirmed)

/-- Modelled from the spec: CPBaaSNotarization::SetMirror (declared outside
src/) turns an earned notarization into its mirrored accepted form; it fails
on an already-mirrored object. -/
def CPBaaSNotarization.setMirror (n : CPBaaSNotarization) : Option CPBaaSNotarization :=
  if n.isMirror then none else some { n with isMirror := true }

/-- The operations CreateAcceptedNotarization performs on the transaction
builder: spending the prior notarization thread and adding the notarization,
evidence and finalization outputs. -/
inductive TxBuilderOp where
  | spendInput (ref : CUTXORef)
  | notarizationOut (n : CPBaaSNotarization)
  | evidenceOut (e : CNotaryEvidence)
  | finalizationOut (f : CObjectFinalization)
deriving DecidableEq, Inhabited

/-- The node-level collaborators CreateAcceptedNotarization consumes:
the chain ids, the active chain, notarization history lookup, identity
lookup, the external signature check (CIdentitySignature::CheckSignature over
the notary-confirmed purpose key), the canonical notarization hash, currency
state lookup and hashing, the currency cache, and the last unspent
notarization of the thread. -/
structure NodeEnv where
  selfID : Nat
  verusChainID : Nat
  chain : ChainView
  getNotarizationData : Nat → Option CChainNotarizationData
  lookupIdentity : Nat → CIdentity
  checkSignature : CIdentitySignature → CIdentity → Nat → Nat → SigVer
  hashNotarization : CPBaaSNotarization → Nat
  getCurrencyState : Nat → Nat → CCoinbaseCurrencyState
  hashCurState : CCoinbaseCurrencyState → Nat
  getCachedCurrency : Nat → CCurrencyDefinition
  lastUnspentNotarization : Nat → Option (CPBaaSNotarization × CUTXORef × CTransaction)

/-- The notary-signature loop of CreateAcceptedNotarization: every signature
must come from an authorized, valid and unrevoked notary identity and verify
SIGNATURE_COMPLETE over the earned notarization's canonical hash. -/
def checkNotarySignatures (env : NodeEnv) (notaries : List Nat)
    (systemID objHash : Nat) (sigs : List (Nat × CIdentitySignature)) : Option String :=
  match sigs with
  | [] => none
  | (sid, sv) :: rest =>
    if !(notaries.contains sid) then
      some "unauthorized notary signature"
    else
      let sigIdentity := env.lookupIdentity sid
      if !sigIdentity.isValidUnrevoked then
        some "invalid notary identity"
      else if env.checkSignature sv sigIdentity systemID objHash != SigVer.complete then
        some "invalid or incomplete notary signature"
      else
        checkNotarySignatures env notaries systemID objHash rest

/-- The embedded-currency-state loop of CreateAcceptedNotarization: every
state claimed for a currency of this chain must match the locally recorded
state at the root height. -/
def checkCurrencyStates (env : NodeEnv) (systemID rootHeight : Nat)
    (states : List (Nat × CCoinbaseCurrencyState)) : Option String :=
  match states with
  | [] => none
  | (cid, cst) :: rest =>
    if cid == systemID then
      checkCurrencyStates env systemID rootHeight rest
    else if cid != env.selfID then
      let curDef := env.getCachedCurrency cid
      if !curDef.isValid then
        some "all currencies in accepted notarizatoin must be registered on this chain"
      else if curDef.systemID != env.selfID then
        checkCurrencyStates env systemID rootHeight rest
      else
        let oldCurState := env.getCurrencyState cid rootHeight
        if !oldCurState.isValid || env.hashCurState oldCurState != env.hashCurState cst then
          some "currecy state is invalid in accepted notarization"
        else
          checkCurrencyStates env systemID rootHeight rest
    else
      some "cannot accept redundant currency state in notarization"

/-- The proof-root loop of CreateAcceptedNotarization: all mentioned
currencies must be registered, and no proof roots are accepted for token
currencies of this chain. -/
def checkProofRoots (env : NodeEnv) (systemID : Nat)
    (roots : List (Nat × CProofRoot)) : Option String :=
  match roots with
  | [] => none
  | (rid, _) :: rest =>
    if rid == systemID then
      checkProofRoots env systemID rest
    else
      let curDef := env.getCachedCurrency rid
      if !curDef.isValid then
        some "all currencies in accepted notarizatoin must be registered on this chain"
      else if curDef.idOf != env.selfID && curDef.systemID == env.selfID then
        some "proof roots are not accepted for token currencies"
      else
        checkProofRoots env systemID rest

/-- CPBaaSNotarization::CreateAcceptedNotarization.  Returns the sequence of
transaction-builder operations on success; every failure returns an error
before anything is added to the transaction being built, exactly as in the
source, where all error returns precede the first builder call.  `mtxOuts0`
is the number of outputs already in the builder. -/
def CPBaaSNotarization.createAcceptedNotarization (env : NodeEnv)
    (externalSystem : CCurrencyDefinition) (earned : CPBaaSNotarization)
    (notaryEvidence : CNotaryEvidence) (mtxOuts0 : Nat) :
    Except String (List TxBuilderOp) :=
  if notaryEvidence.signatures.length == 0 then
    .error "insufficient notary evidence required to accept notarization"
  else
    match (if earned.isMirror then none else earned.setMirror) with
    | none => .error "invalid earned notarization"
    | some newN0 =>
      let systemID := externalSystem.idOf
      let height := env.chain.height
      let newN :=
        if containsA newN0.proofRoots env.selfID then newN0
        else { newN0 with proofRoots := insertA newN0.proofRoots env.selfID invalidProofRoot }
      let ourRoot := (lookupA newN.proofRoots env.selfID).getD invalidProofRoot
      match env.getNotarizationData systemID with
      | none => .error "cannot locate notarization history"
      | some cnd =>
        let lastConfNot := (cnd.vtx.getD cnd.lastConfirmed.toNat default).2
        if !cnd.isConfirmed ||
           !(containsA lastConfNot.proofRoots env.selfID) ||
           ourRoot.rootHeight ≤
             ((lookupA lastConfNot.proofRoots env.selfID).getD invalidProofRoot).rootHeight then
          .error "earned notarization proof root is not later than prior confirmed for this chain"
        else
          let objHash := env.hashNotarization earned
          match checkNotarySignatures env externalSystem.notaries systemID objHash
                notaryEvidence.signatures with
          | some e => .error e
          | none =>
            if !(containsA newN.proofRoots systemID) ||
               !(containsA newN.proofRoots env.selfID) ||
               !ourRoot.isValid ||
               height < ourRoot.rootHeight ||
               ourRoot.blockHash != env.chain.blockHashAt ourRoot.rootHeight ||
               ourRoot.stateRoot != env.chain.mmrRootAt ourRoot.rootHeight ||
               (ourRoot.type != PROOFROOT_TYPE_PBAAS &&
                ourRoot.type != PROOFROOT_TYPE_ETHEREUM) then
              .error "can only create accepted notarization from notarization with valid proof root of this chain"
            else
              let oldCurState := env.getCurrencyState env.selfID ourRoot.rootHeight
              if !oldCurState.isValid ||
                 env.hashCurState oldCurState != env.hashCurState earned.currencyState then
                .error "currecy state is invalid in accepted notarization"
              else
                match checkCurrencyStates env systemID ourRoot.rootHeight newN.currencyStates with
                | some e => .error e
                | none =>
                  match checkProofRoots env systemID newN.proofRoots with
                  | some e => .error e
                  | none =>
                    match env.lastUnspentNotarization systemID with
                    | none => .error "invalid prior notarization"
                    | some lastFound =>
                      let baseOps := [TxBuilderOp.spendInput lastFound.2.1,
                                      TxBuilderOp.notarizationOut newN,
                                      TxBuilderOp.evidenceOut notaryEvidence]
                      if externalSystem.notarizationProtocol != NOTARIZATION_NOTARY_CHAINID then
                        let ofBase : CObjectFinalization :=
                          { version := VERSION_CURRENT,
                            finalizationType := FINALIZE_NOTARIZATION,
                            currencyID := env.verusChainID,
                            output := ⟨0, mtxOuts0 + 2⟩,
                            confirmed := false, rejected := false,
                            evidenceOutputs := [], evidenceInputs := [],
                            minFinalizationHeight := height + 15 }
                        let finOf :=
                          if externalSystem.notaries.length ≤ notaryEvidence.signatures.length then
                            { ofBase with confirmed := true, evidenceOutputs := [mtxOuts0 + 1] }
                          else
                            ofBase
                        .ok (baseOps ++ [TxBuilderOp.finalizationOut finOf])
                      else
                        .ok baseOps

/-! ## NextNotarizationInfo: transfer vetting and the launch transition -/

/-- The slice of CReserveTransfer the notarization logic reads. -/
structure CReserveTransfer where
  isPreConversionT : Bool
  isConversionT : Bool
  isRefund : Bool
  firstCurrencyID : Nat
  firstValue : Int
  destination : Nat
deriving DecidableEq, Inhabited

/-- Modelled from the spec: CReserveTransfer::GetRefundTransfer (declared
outside src/) converts a transfer in place to its refund form, under which
it contributes nothing to the destination currency's reserves and its full
value is returned to the sender. -/
def CReserveTransfer.getRefundTransfer (rt : CReserveTransfer) : CReserveTransfer :=
  { rt with isRefund := true }

/-- External collaborators of NextNotarizationInfo: the canonical
notarization and transfer-batch hashes, the conversion-fee computation
(CReserveTransactionDescriptor::CalculateConversionFee), the currency-state
revert (RevertReservesAndSupply, declared outside src/), and the
reserve-transfer import engine (AddReserveTransferImportOutputs), which maps
a starting currency state and a transfer batch to the resulting currency
state or fails on an invalid export. -/
structure LifecycleEnv where
  thisChainID : Nat
  hashNotarization : CPBaaSNotarization → Nat
  hashTransfers : List CReserveTransfer → Nat
  conversionFee : Int → Int
  revertReservesAndSupply : CCoinbaseCurrencyState → CCoinbaseCurrencyState
  addImportOutputs : CCoinbaseCurrencyState → List CReserveTransfer → Option CCoinbaseCurrencyState

/-- The per-transfer vetting loop of NextNotarizationInfo: a pre-conversion
mined at or after the start block, or one that would push the accumulated
reserves over the configured pre-conversion maximum, is converted in place
to its refund form; an ordinary conversion before the launch-complete marker
is likewise refunded. -/
def mutateExportTransfer (env : LifecycleEnv) (destCurrency : CCurrencyDefinition)
    (cs : CCoinbaseCurrencyState) (lastExportHeight : Nat)
    (rt : CReserveTransfer) : CReserveTransfer :=
  if rt.isPreConversionT then
    if destCurrency.startBlock ≤ lastExportHeight then
      rt.getRefundTransfer
    else
      let newReserveIn : CCurrencyValueMap :=
        [(rt.firstCurrencyID, rt.firstValue - env.conversionFee rt.firstValue)]
      let newTotalReserves := cvAdd (cvFrom destCurrency.currencies cs.reserves) newReserveIn
      if destCurrency.maxPreconvert.length != 0 &&
         cvExceeds newTotalReserves (cvFrom destCurrency.currencies destCurrency.maxPreconvert) then
        rt.getRefundTransfer
      else
        rt
  else if rt.isConversionT then
    if !cs.launchCompleteMarker then rt.getRefundTransfer else rt
  else
    rt

/-- Subtract the configured initial contributions from the reserves
(the definition-notarization adjustment of the pre-launch phase). -/
def subContributions (reserves contributions : List Int) : List Int :=
  reserves.mapIdx (fun i v => v - contributions.getD i 0)

/-- The launch-clear block of NextNotarizationInfo (the branch taken when
the destination currency launches from this system and the current height
is at most one below its start block): the two launch-clear sub-phases at
the height immediately preceding the start block, deciding refund-vs-launch
on the import sub-phase, and the ordinary pre-launch update below it. -/
def launchClearUpdate (env : LifecycleEnv) (destCurrency : CCurrencyDefinition)
    (isDefNot : Bool) (currentHeight : Nat) (n : CPBaaSNotarization) :
    CPBaaSNotarization :=
  if currentHeight == pred32 destCurrency.startBlock && n.preLaunch then
    if n.launchCleared then
      let cs := env.revertReservesAndSupply { n.currencyState with launchClear := true }
      { n with preLaunch := false, currencyState := { cs with prelaunch := false } }
    else
      let n1 := { n with launchCleared := true }
      let cs2 := env.revertReservesAndSupply { n1.currencyState with launchClear := true }
      let cs3 := { cs2 with prelaunch := false }
      let minPreMap :=
        if destCurrency.minPreconvert.length != 0 &&
           destCurrency.minPreconvert.length == destCurrency.currencies.length then
          cvCanonical (cvFrom destCurrency.currencies destCurrency.minPreconvert)
        else
          []
      let preConvertedMap := cvCanonical (cvFrom destCurrency.currencies cs3.reserves)
      if minPreMap.length != 0 && cvLT preConvertedMap minPreMap then
        { n1 with refunding := true,
                  currencyState := { cs3 with supply := 0, refunding := true } }
      else
        { n1 with launchConfirmed := true,
                  currencyState := { cs3 with launchConfirmed := true } }
  else if currentHeight < pred32 destCurrency.startBlock then
    let cs1 := { n.currencyState with prelaunch := true }
    let cs2 :=
      if isDefNot && destCurrency.contributions.length != 0 then
        { cs1 with reserves := subContributions cs1.reserves destCurrency.contributions }
      else
        cs1
    { n with currencyState := cs2 }
  else
    n

/-- The result of NextNotarizationInfo: the success flag, the (possibly
refund-mutated) transfer batch, the pre-mutation transfer-batch hash, and
the new notarization. -/
structure NextInfoResult where
  ok : Bool
  transfers : List CReserveTransfer
  transferHash : Option Nat
  newNotarization : CPBaaSNotarization
deriving DecidableEq, Inhabited

/-- CPBaaSNotarization::NextNotarizationInfo. -/
def CPBaaSNotarization.nextNotarizationInfo (env : LifecycleEnv)
    (sourceSystem destCurrency : CCurrencyDefinition)
    (lastExportHeight currentHeight : Nat)
    (exportTransfers : List CReserveTransfer)
    (prev : CPBaaSNotarization) : NextInfoResult :=
  let sourceSystemID := sourceSystem.idOf
  let base := { prev with isDefinitionNotarization := false,
                          prevNotarization := ⟨0, 0⟩,
                          prevHeight := prev.notarizationHeight,
                          notarizationHeight := currentHeight,
                          hashPrevNotarization := env.hashNotarization prev }
  if prev.currencyState.refunding then
    { ok := true, transfers := exportTransfers, transferHash := none,
      newNotarization := base }
  else
    let mutated := exportTransfers.map
      (mutateExportTransfer env destCurrency base.currencyState lastExportHeight)
    let tHash := if exportTransfers.length != 0 then
                   some (env.hashTransfers exportTransfers)
                 else none
    let tail : Bool × CPBaaSNotarization :=
      if destCurrency.launchSystemID == sourceSystemID &&
         currentHeight ≤ pred32 destCurrency.startBlock then
        let n1 := launchClearUpdate env destCurrency prev.isDefinitionNotarization
                    currentHeight base
        match env.addImportOutputs n1.currencyState mutated with
        | some tempState => (true, { n1 with currencyState := tempState })
        | none => (false, n1)
      else
        let cs0 := { base.currencyState with launchCompleteMarker := true,
                                             launchClear := false }
        let n1 := if destCurrency.systemID != env.thisChainID then
                    { base with sameChain := false, currencyState := cs0 }
                  else
                    { base with currencyState := cs0 }
        match env.addImportOutputs prev.currencyState mutated with
        | none => (false, n1)
        | some ns1 =>
          let n2 := { n1 with currencyState := ns1 }
          if !ns1.prelaunch && destCurrency.isFractional then
            let tempCurState := { prev.currencyState with
                                    conversionPrice := ns1.conversionPrice,
                                    viaConversionPrice := ns1.viaConversionPrice }
            match env.addImportOutputs tempCurState mutated with
            | none => (false, n2)
            | some ns2 =>
              (true,
                { n2 with currencyState :=
                    { ns2 with conversionPrice := tempCurState.conversionPrice,
                               viaConversionPrice := tempCurState.viaConversionPrice } })
          else
            (true, n2)
    { ok := tail.1, transfers := mutated, transferHash := tHash,
      newNotarization := tail.2 }

/-! ## Helper observations used by the theorems -/

/-- The confirmed flags of the finalization outputs among builder ops. -/
def finalizationFlags (ops : List TxBuilderOp) : List Bool :=
  ops.filterMap (fun op => match op with
    | TxBuilderOp.finalizationOut f => some f.confirmed
    | _ => none)

/-- Whether a CreateAcceptedNotarization run failed with an error. -/
def isErrorResult (r : Except String (List TxBuilderOp)) : Bool :=
  match r with
  | .error _ => true
  | .ok _ => false

/-- The root height an earned notarization claims for the given chain (the
height of its proof root for that system; 0 via the default root when the
entry is missing, exactly as the map-subscript read of the source). -/
def earnedSelfRootHeight (earned : CPBaaSNotarization) (selfID : Nat) : Nat :=
  ((lookupA earned.proofRoots selfID).getD invalidProofRoot).rootHeight

/-- The proof root for the given chain recorded in the last confirmed
notarization of a notarization history, when one is recorded. -/
def lastConfirmedSelfRoot (cnd : CChainNotarizationData) (selfID : Nat) : Option CProofRoot :=
  if cnd.isConfirmed then
    lookupA ((cnd.vtx.getD cnd.lastConfirmed.toNat default).2).proofRoots selfID
  else
    none

/-! ## Concrete instances used by witnesses and counterexamples -/

/-- C1 instance: one authorized notary (identity 5) with threshold 1. -/
def curDefC1 : CCurrencyDefinition :=
  { isValid := true, idOf := 9, systemID := 9, launchSystemID := 9, startBlock := 0,
    currencies := [], minPreconvert := [], maxPreconvert := [], contributions := [],
    notaries := [5], minNotariesConfirm := 1, notarizationProtocol := 1,
    isFractional := false }

/-- C1 instance: identity 5 with a single PKH primary address 77 and
minSigs one. -/
def idnC1 : CIdentity :=
  { isValid := true, isValidUnrevoked := true,
    primaryAddresses := [{ which := ADDRTYPE_PKH, destID := 77 }], minSigs := 1 }

def envC1 : VerifySigEnv :=
  { getCurrencyDefinition := fun c => if c == 9 then some curDefC1 else none,
    lookupIdentityAt := fun i _ => if i == 5 then idnC1 else default,
    conditionID := fun _ _ _ => 500,
    idSigHash := fun _ _ _ _ _ => 600,
    recoverCompact := fun h s => if h == 600 && s == [1] then 77 else 0,
    hashBytes := fun _ => 700 }

def ofC1 : CObjectFinalization :=
  { version := VERSION_CURRENT, finalizationType := FINALIZE_NOTARIZATION,
    currencyID := 9, output := ⟨0, 0⟩, confirmed := false, rejected := false,
    evidenceOutputs := [], evidenceInputs := [], minFinalizationHeight := 0 }

def txC1 : CTransaction := { txid := 11, vout := [] }

/-- C1 instance: evidence carrying identity 5's single signature [1]. -/
def evC1 : CNotaryEvidence :=
  { version := VERSION_CURRENT, type := 0, systemID := 9, output := ⟨0, 0⟩,
    confirmed := true, signatures := [(5, ⟨[[1]]⟩)] }

def pC1 : COptCCParams :=
  { isValid := true, version := 3, evalCode := EVAL_EARNEDNOTARIZATION, vData := [[9, 9]] }

/-- C4 instance: currency 9 with single authorized notary 5. -/
def curDefC4 : CCurrencyDefinition :=
  { curDefC1 with notaries := [5], minNotariesConfirm := 1 }

/-- C4 instance: notary identity 5 with no primary addresses and minSigs 0
(the configuration under which the source's per-address type guard cannot
fire). -/
def idnC4 : CIdentity :=
  { isValid := true, isValidUnrevoked := true, primaryAddresses := [], minSigs := 0 }

/-- C4 instance: evidence signed by authorized notary 5 together with an
extra signer 6 that is not in the authorized notary set. -/
def evC4 : CNotaryEvidence :=
  { version := VERSION_CURRENT, type := 0, systemID := 9, output := ⟨21, 0⟩,
    confirmed := true, signatures := [(5, ⟨[]⟩), (6, ⟨[]⟩)] }

def ofC4 : CObjectFinalization :=
  { version := VERSION_CURRENT, finalizationType := FINALIZE_NOTARIZATION,
    currencyID := 9, output := ⟨22, 0⟩, confirmed := false, rejected := false,
    evidenceOutputs := [], evidenceInputs := [], minFinalizationHeight := 0 }

def notC4 : CPBaaSNotarization :=
  { emptyNotarization with nVersion := VERSION_CURRENT,
                           proofRoots := [(9, invalidProofRoot)] }

/-- C4 instance: the finalization-bearing transaction of the middle hop. -/
def finTxC4 : CTransaction :=
  { txid := 21,
    vout := [{ scriptPubKey := some { isValid := true, version := 3,
                                      evalCode := EVAL_FINALIZE_NOTARIZATION,
                                      vData := [[2]] }, nValue := 0 }] }

/-- C4 instance: the notarization-bearing transaction of the last hop. -/
def notTxC4 : CTransaction :=
  { txid := 22,
    vout := [{ scriptPubKey := some { isValid := true, version := 3,
                                      evalCode := EVAL_EARNEDNOTARIZATION,
                                      vData := [[3]] }, nValue := 0 }] }

/-- C4 instance: the evidence-bearing transaction being validated. -/
def txC4 : CTransaction :=
  { txid := 20,
    vout := [{ scriptPubKey := some { isValid := true, version := 3,
                                      evalCode := EVAL_NOTARY_EVIDENCE,
                                      vData := [[1]] }, nValue := 0 }] }

def envC4 : ValidateEvidenceEnv :=
  { decodeEvidence := fun b => if b == [1] then evC4 else default,
    decodeFinalization := fun b => if b == [2] then ofC4 else default,
    decodeNotarization := fun b => if b == [3] then notC4 else emptyNotarization,
    getCachedCurrency := fun c => if c == 9 then curDefC4 else default,
    getTransaction := fun h =>
      if h == 21 then some finTxC4 else if h == 22 then some notTxC4 else none,
    lookupIdentityAt := fun i _ => if i == 5 then idnC4 else default,
    conditionID := fun _ _ _ => 500,
    idSigHash := fun _ _ _ _ _ => 600,
    recoverCompact := fun _ _ => 0,
    hashBytes := fun _ => 700 }

/-- C2/C7 instance: the active chain at height 100. -/
def chainC7 : ChainView :=
  { selfID := 1, height := 100, blockHashAt := fun h => 1000 + h,
    compactPowerAt := fun _ => 0, mmrRootAt := fun h => 2000 + h }

/-- C2/C7 instance: this chain's proof root at height 95 as the earned
notarization carries it, matching the local chain data. -/
def rootSelfC7 : CProofRoot :=
  { version := VERSION_CURRENT, type := PROOFROOT_TYPE_PBAAS, systemID := 1,
    rootHeight := 95, stateRoot := 2095, blockHash := 1095, compactPower := 0 }

def rootSysC7 : CProofRoot :=
  { version := VERSION_CURRENT, type := PROOFROOT_TYPE_PBAAS, systemID := 2,
    rootHeight := 400, stateRoot := 3, blockHash := 4, compactPower := 0 }

def csC7 : CCoinbaseCurrencyState :=
  { isValid := true, reserves := [], supply := 0, prelaunch := false,
    launchClear := false, launchConfirmed := false, launchCompleteMarker := false,
    refunding := false, conversionPrice := [], viaConversionPrice := [] }

/-- C2/C7 instance: the last confirmed notarization records this chain's
proof root at height 90. -/
def lastNotC7 : CPBaaSNotarization :=
  { emptyNotarization with
      nVersion := VERSION_CURRENT,
      proofRoots := [(1, { rootSelfC7 with
                             rootHeight := 90, stateRoot := 2090,
                             blockHash := 1090 })] }

def cndC7 : CChainNotarizationData :=
  { version := 1, vtx := [(⟨7, 0⟩, lastNotC7)], forks := [[0]],
    lastConfirmed := 0, bestChain := 0 }

/-- C2/C7 instance: external system 2 with two authorized notaries and
confirmation threshold one. -/
def extSysC7 : CCurrencyDefinition :=
  { isValid := true, idOf := 2, systemID := 2, launchSystemID := 2, startBlock := 0,
    currencies := [], minPreconvert := [], maxPreconvert := [], contributions := [],
    notaries := [5, 6], minNotariesConfirm := 1,
    notarizationProtocol := NOTARIZATION_AUTO, isFractional := false }

/-- C2/C7 instance: the earned notarization whose self proof root is at
height 95. -/
def earnedC7 : CPBaaSNotarization :=
  { emptyNotarization with
      nVersion := VERSION_CURRENT, currencyID := 2,
      currencyState := csC7,
      proofRoots := [(2, rootSysC7), (1, rootSelfC7)] }

/-- C2/C7 instance: evidence carrying one COMPLETE notary signature. -/
def evC7 : CNotaryEvidence :=
  { version := VERSION_CURRENT, type := 0, systemID := 2, output := ⟨0, 0⟩,
    confirmed := true, signatures := [(5, ⟨[[1]]⟩)] }

/-- C2 witness instance: evidence with no signatures at all. -/
def evEmptyC2 : CNotaryEvidence :=
  { version := VERSION_CURRENT, type := 0, systemID := 2, output := ⟨0, 0⟩,
    confirmed := true, signatures := [] }

def envC7 : NodeEnv :=
  { selfID := 1, verusChainID := 1, chain := chainC7,
    getNotarizationData := fun s => if s == 2 then some cndC7 else none,
    lookupIdentity := fun _ =>
      { isValid := true, isValidUnrevoked := true, primaryAddresses := [], minSigs := 1 },
    checkSignature := fun _ _ _ _ => SigVer.complete,
    hashNotarization := fun _ => 77,
    getCurrencyState := fun _ _ => csC7,
    hashCurState := fun _ => 0,
    getCachedCurrency := fun c =>
      { isValid := true, idOf := c, systemID := c, launchSystemID := c, startBlock := 0,
        currencies := [], minPreconvert := [], maxPreconvert := [], contributions := [],
        notaries := [], minNotariesConfirm := 0, notarizationProtocol := 1,
        isFractional := false },
    lastUnspentNotarization := fun s =>
      if s == 2 then some (lastNotC7, ⟨33, 0⟩, { txid := 33, vout := [] }) else none }

/-- C3/C9 instances: trivial collaborators for the signing operations. -/
def ksT : KeyStoreView := ⟨fun _ _ => (true, (true, 0))⟩

def nsT : NewSignatureOracle := fun _ _ _ _ _ => (SigVer.complete, ⟨[[4]]⟩)

def tx0 : CTransaction := { txid := 0, vout := [] }

/-- C3 instance: evidence already holding a rejecting signature. -/
def evPolRej : CNotaryEvidence :=
  { version := VERSION_CURRENT, type := 0, systemID := 2, output := ⟨0, 0⟩,
    confirmed := false, signatures := [(5, ⟨[[1]]⟩)] }

/-- C3 instance: evidence already holding a confirming signature. -/
def evPolCon : CNotaryEvidence :=
  { evPolRej with confirmed := true }

/-- C9 instance: a key store that does not control any identity. -/
def ks9 : KeyStoreView := ⟨fun _ _ => (false, (false, 3))⟩

/-- C9 instance: the signing capability fails for the uncontrolled
identity. -/
def ns9 : NewSignatureOracle := fun _ _ _ _ _ => (SigVer.invalid, ⟨[]⟩)

/-- C9 instance: empty evidence to be signed. -/
def ev9 : CNotaryEvidence :=
  { version := VERSION_CURRENT, type := 0, systemID := 2, output := ⟨0, 0⟩,
    confirmed := true, signatures := [] }

/-- C8 witness chain. -/
def chainW8 : ChainView :=
  { selfID := 1, height := 10, blockHashAt := fun h => h + 100,
    compactPowerAt := fun _ => 5, mmrRootAt := fun h => h + 200 }

/-- C10 witness transaction: two notarization outputs and two finalization
outputs. -/
def tx10 : CTransaction :=
  { txid := 50,
    vout := [{ scriptPubKey := some { isValid := true, version := 3,
                                      evalCode := EVAL_EARNEDNOTARIZATION,
                                      vData := [[1]] }, nValue := 0 },
             { scriptPubKey := some { isValid := true, version := 3,
                                      evalCode := EVAL_ACCEPTEDNOTARIZATION,
                                      vData := [[2]] }, nValue := 0 },
             { scriptPubKey := some { isValid := true, version := 3,
                                      evalCode := EVAL_FINALIZE_NOTARIZATION,
                                      vData := [[3]] }, nValue := 0 },
             { scriptPubKey := some { isValid := true, version := 3,
                                      evalCode := EVAL_FINALIZE_EXPORT,
                                      vData := [[4]] }, nValue := 0 }] }

def decode10 : Bytes → CPBaaSNotarization :=
  fun _ => { emptyNotarization with nVersion := VERSION_CURRENT,
                                    proofRoots := [(1, invalidProofRoot)] }

/-- C5/C6 lifecycle collaborators: identity revert, 2 percent conversion
fee, import engine that keeps the state it is given. -/
def envL5 : LifecycleEnv :=
  { thisChainID := 1, hashNotarization := fun _ => 0, hashTransfers := fun _ => 0,
    conversionFee := fun v => v / 50, revertReservesAndSupply := fun s => s,
    addImportOutputs := fun s _ => some s }

/-- C5 witness currency: single backing currency 7, minimum pre-conversion
1000, start block 100. -/
def destC5 : CCurrencyDefinition :=
  { isValid := true, idOf := 3, systemID := 1, launchSystemID := 1, startBlock := 100,
    currencies := [7], minPreconvert := [1000], maxPreconvert := [], contributions := [],
    notaries := [], minNotariesConfirm := 0, notarizationProtocol := 1,
    isFractional := false }

def csC5 : CCoinbaseCurrencyState :=
  { isValid := true, reserves := [900], supply := 500, prelaunch := true,
    launchClear := false, launchConfirmed := false, launchCompleteMarker := false,
    refunding := false, conversionPrice := [], viaConversionPrice := [] }

/-- C5 witness notarization entering the launch-clear import sub-phase with
accumulated reserves of 900 against a minimum of 1000. -/
def nC5 : CPBaaSNotarization :=
  { emptyNotarization with nVersion := VERSION_CURRENT, preLaunch := true,
                           currencyState := csC5 }

/-- C6 witness currency: maximum pre-conversion 1000 on currency 7. -/
def destC6 : CCurrencyDefinition :=
  { destC5 with minPreconvert := [], maxPreconvert := [1000] }

/-- C6 witness transfer: a pre-conversion of 500 in currency 7. -/
def rtC6 : CReserveTransfer :=
  { isPreConversionT := true, isConversionT := false, isRefund := false,
    firstCurrencyID := 7, firstValue := 500, destination := 8 }

/-- C6 witness prior notarization with existing reserves of 800. -/
def prevC6 : CPBaaSNotarization :=
  { emptyNotarization with
      nVersion := VERSION_CURRENT, preLaunch := true,
      currencyState := { csC5 with reserves := [800] } }

/-! ## Theorems -/

/-- C8: CProofRoot::GetProofRoot(h) returns an invalid/empty proof root when
h exceeds the active chain's current height; otherwise it returns a proof
root whose rootHeight is h, whose stateRoot is the MMR root computed over
exactly h elements, and whose blockHash and compactPower are the active
chain's block hash and compact chain power at height h. -/
theorem getProofRoot_spec (chain : ChainView) (h : Nat) :
    (chain.height < h → (CProofRoot.getProofRoot chain h).isValid = false) ∧
    (h ≤ chain.height →
      CProofRoot.getProofRoot chain h =
        { version := VERSION_CURRENT, type := PROOFROOT_TYPE_PBAAS,
          systemID := chain.selfID, rootHeight := h,
          stateRoot := chain.mmrRootAt h, blockHash := chain.blockHashAt h,
          compactPower := chain.compactPowerAt h }) := by
  constructor
  · intro hgt
    unfold CProofRoot.getProofRoot
    rw [if_pos hgt]
    rfl
  · intro hle
    unfold CProofRoot.getProofRoot
    rw [if_neg (by omega)]

/-- Witness for C8 at a concrete chain of height 10: height 11 yields an
invalid root, height 7 yields the packaged chain data at 7. -/
theorem getProofRoot_spec_witness :
    (CProofRoot.getProofRoot chainW8 11).isValid = false ∧
    CProofRoot.getProofRoot chainW8 7 =
      { version := VERSION_CURRENT, type := PROOFROOT_TYPE_PBAAS,
        systemID := chainW8.selfID, rootHeight := 7,
        stateRoot := chainW8.mmrRootAt 7, blockHash := chainW8.blockHashAt 7,
        compactPower := chainW8.compactPowerAt 7 } :=
  ⟨(getProofRoot_spec chainW8 11).1 (by decide),
   (getProofRoot_spec chainW8 7).2 (by decide)⟩

/-- C3: once a CNotaryEvidence object contains any signature, its polarity
cannot change: SignConfirmed on an object recorded as rejecting returns
SIGNATURE_INVALID and inserts no signature, and SignRejected on an object
recorded as confirming likewise returns SIGNATURE_INVALID and inserts no
signature. -/
theorem sign_polarity_locked (ev : CNotaryEvidence) (ks : KeyStoreView)
    (ns : NewSignatureOracle) (hb : Bytes → Nat) (tx : CTransaction)
    (signWithID height : Nat) (hsig : ev.signatures ≠ []) :
    (ev.confirmed = false →
       ev.signConfirmed ks ns hb tx signWithID height = (SigVer.invalid, ev)) ∧
    (ev.confirmed = true →
       ev.signRejected ks ns hb tx signWithID height = (SigVer.invalid, ev)) := by
  constructor
  · intro hconf
    unfold CNotaryEvidence.signConfirmed
    rw [if_pos]
    simp [hconf, hsig]
  · intro hconf
    unfold CNotaryEvidence.signRejected
    rw [if_pos]
    simp [hconf, hsig]

/-- Witness for C3: a rejecting evidence object refuses SignConfirmed and a
confirming one refuses SignRejected, both unchanged. -/
theorem sign_polarity_locked_witness :
    evPolRej.signConfirmed ksT nsT (fun _ => 0) tx0 5 10 = (SigVer.invalid, evPolRej) ∧
    evPolCon.signRejected ksT nsT (fun _ => 0) tx0 5 10 = (SigVer.invalid, evPolCon) :=
  ⟨(sign_polarity_locked evPolRej ksT nsT (fun _ => 0) tx0 5 10 (by decide)).1 rfl,
   (sign_polarity_locked evPolCon ksT nsT (fun _ => 0) tx0 5 10 (by decide)).2 rfl⟩

/-- C9: when the signing identity is not controlled by the given key store
(GetIdentity fails and the signing capability cannot produce a signature for
it), SignConfirmed and SignRejected return SIGNATURE_INVALID and insert no
signature. -/
theorem sign_uncontrolled_identity (ev : CNotaryEvidence) (ks : KeyStoreView)
    (ns : NewSignatureOracle) (hb : Bytes → Nat) (tx : CTransaction)
    (signWithID height : Nat)
    (hGet : (ks.getIdentity signWithID height).1 = false)
    (hNew : ∀ pk oh, (ns (ks.getIdentity signWithID height).2.2 pk ev.systemID height oh).1
              = SigVer.invalid) :
    ev.signConfirmed ks ns hb tx signWithID height = (SigVer.invalid, ev) ∧
    ev.signRejected ks ns hb tx signWithID height = (SigVer.invalid, ev) := by
  constructor
  · unfold CNotaryEvidence.signConfirmed
    split
    · rfl
    · split
      · simp [hNew]
      · simp
  · unfold CNotaryEvidence.signRejected
    split
    · rfl
    · split
      · simp [hNew]
      · simp

/-- Witness for C9 at a key store controlling no identity. -/
theorem sign_uncontrolled_identity_witness :
    ev9.signConfirmed ks9 ns9 (fun _ => 0) tx0 5 10 = (SigVer.invalid, ev9) ∧
    ev9.signRejected ks9 ns9 (fun _ => 0) tx0 5 10 = (SigVer.invalid, ev9) :=
  sign_uncontrolled_identity ev9 ks9 ns9 (fun _ => 0) tx0 5 10 rfl (fun _ _ => rfl)

/-- C1 (code bug): at a configuration where one authorized notary identity
carries exactly one signature that recovers to an address in its
primary-address set (so one identity is COMPLETE under its minSigs of one,
meeting minNotariesConfirm of one, and no signature recovers outside the
set), VerifyOutputSignature nevertheless returns SIGNATURE_INVALID: its
per-address guard `which() != ADDRTYPE_PK || which() != ADDRTYPE_PKH` is a
tautology and rejects every identity that has any primary address. -/
theorem verifyOutputSignature_rejects_valid_complete_set :
    CObjectFinalization.verifyOutputSignature envC1 ofC1 txC1 evC1 pC1 10 = SigVer.invalid ∧
    envC1.recoverCompact (envC1.idSigHash 500 9 10 5 700) [1] = 77 ∧
    (idnC1.primaryAddresses.map (fun a => a.destID)).contains 77 = true ∧
    idnC1.minSigs = 1 ∧
    curDefC1.minNotariesConfirm = 1 ∧
    evC1.signatures = [(5, ⟨[[1]]⟩)] ∧
    curDefC1.notaries = [5] := by
  refine ⟨rfl, by decide, by decide, rfl, rfl, rfl, rfl⟩

/-- C4 (code bug): with the full evidence-finalization-notarization hop
chain well formed, ValidateNotarizationEvidence succeeds (no error, one
confirmed unit) even though the evidence carries a signature keyed by
identity 6, which is not in the currency's authorized notary set [5]: the
per-notary loop iterates over the authorized set only, so unauthorized
signers present in the evidence are silently ignored instead of failing the
whole call. -/
theorem validateNotarizationEvidence_ignores_unauthorized_signer :
    validateNotarizationEvidence envC4 txC4 0 10 = (none, 1) ∧
    (evC4.signatures.map (fun p => p.1)).contains 6 = true ∧
    curDefC4.notaries.contains 6 = false := by
  refine ⟨rfl, by decide, by decide⟩

/-- C7 counterexample: a run of CreateAcceptedNotarization that succeeds for
a system whose protocol is not the single-fixed-notary-chain protocol, with
one signature against a minNotariesConfirm threshold of one (the threshold
is met), yet the emitted finalization output is not pre-marked CONFIRMED,
because the source compares the signature count against the total number of
authorized notaries (two), not against minNotariesConfirm. -/
theorem createAccepted_finalization_not_confirmed_at_threshold :
    Except.map finalizationFlags
        (CPBaaSNotarization.createAcceptedNotarization envC7 extSysC7 earnedC7 evC7 0)
      = Except.ok [false] ∧
    extSysC7.minNotariesConfirm ≤ evC7.signatures.length ∧
    extSysC7.notarizationProtocol ≠ NOTARIZATION_NOTARY_CHAINID := by
  refine ⟨rfl, by decide, by decide⟩

/-- Loop invariant for the notarization transaction constructor: with one
qualifying output already consumed, any further qualifying output forces the
invalid version and clears the proof roots. -/
theorem notarizationFromTxLoop_found (decode : Bytes → CPBaaSNotarization) :
    ∀ (outs : List CTxOut) (i : Nat) (cur : CPBaaSNotarization) (outIdx : Option Nat),
      (∃ o ∈ outs, isNotarizationOut o = true) →
      (notarizationFromTxLoop decode i outs true cur outIdx).1.nVersion = VERSION_INVALID ∧
      (notarizationFromTxLoop decode i outs true cur outIdx).1.proofRoots = [] := by
  intro outs
  induction outs with
  | nil =>
    intro i cur outIdx h
    simp at h
  | cons o rest ih =>
    intro i cur outIdx h
    by_cases hq : isNotarizationOut o = true
    · simp [notarizationFromTxLoop, hq]
    · simp only [notarizationFromTxLoop, hq, if_false]
      apply ih
      obtain ⟨x, hx, hqx⟩ := h
      cases hx with
      | head => exact absurd hqx hq
      | tail _ hmem => exact ⟨x, hmem, hqx⟩

/-- Two qualifying outputs in the remaining scan force the invalid version
and cleared proof roots, starting from the not-yet-found state. -/
theorem notarizationFromTxLoop_two (decode : Bytes → CPBaaSNotarization) :
    ∀ (outs : List CTxOut) (i : Nat) (cur : CPBaaSNotarization) (outIdx : Option Nat),
      2 ≤ (outs.filter isNotarizationOut).length →
      (notarizationFromTxLoop decode i outs false cur outIdx).1.nVersion = VERSION_INVALID ∧
      (notarizationFromTxLoop decode i outs false cur outIdx).1.proofRoots = [] := by
  intro outs
  induction outs with
  | nil =>
    intro i cur outIdx h
    simp at h
  | cons o rest ih =>
    intro i cur outIdx h
    by_cases hq : isNotarizationOut o = true
    · simp only [notarizationFromTxLoop, hq, if_true, if_false]
      apply notarizationFromTxLoop_found
      simp [hq] at h
      have hpos : 0 < (rest.filter isNotarizationOut).length := by omega
      obtain ⟨x, hx⟩ := List.exists_mem_of_length_pos hpos
      have hm := List.mem_filter.mp hx
      exact ⟨x, hm.1, hm.2⟩
    · simp only [notarizationFromTxLoop, hq, if_false]
      apply ih
      simp [hq] at h
      exact h

/-- Loop invariant for the finalization transaction constructor: with one
qualifying output already recorded, any further qualifying output forces the
invalid version and resets the reported index. -/
theorem finalizationFromTxLoop_found :
    ∀ (outs : List CTxOut) (i : Nat) (v : Nat) (ec : Option Nat) (j : Nat),
      (∃ o ∈ outs, isFinalizationOut o = true) →
      (finalizationFromTxLoop i outs v ec (some j)).1 = VERSION_INVALID ∧
      (finalizationFromTxLoop i outs v ec (some j)).2.2 = none := by
  intro outs
  induction outs with
  | nil =>
    intro i v ec j h
    simp at h
  | cons o rest ih =>
    intro i v ec j h
    by_cases hq : isFinalizationOut o = true
    · simp [finalizationFromTxLoop, hq]
    · simp only [finalizationFromTxLoop, hq, if_false]
      apply ih
      obtain ⟨x, hx, hqx⟩ := h
      cases hx with
      | head => exact absurd hqx hq
      | tail _ hmem => exact ⟨x, hmem, hqx⟩

/-- Two qualifying outputs force the invalid version and a reset index,
starting from the not-yet-found state. -/
theorem finalizationFromTxLoop_two :
    ∀ (outs : List CTxOut) (i : Nat) (v : Nat) (ec : Option Nat),
      2 ≤ (outs.filter isFinalizationOut).length →
      (finalizationFromTxLoop i outs v ec none).1 = VERSION_INVALID ∧
      (finalizationFromTxLoop i outs v ec none).2.2 = none := by
  intro outs
  induction outs with
  | nil =>
    intro i v ec h
    simp at h
  | cons o rest ih =>
    intro i v ec h
    by_cases hq : isFinalizationOut o = true
    · simp only [finalizationFromTxLoop, hq, if_true, Option.isSome_none, if_false]
      apply finalizationFromTxLoop_found
      simp [hq] at h
      have hpos : 0 < (rest.filter isFinalizationOut).length := by omega
      obtain ⟨x, hx⟩ := List.exists_mem_of_length_pos hpos
      have hm := List.mem_filter.mp hx
      exact ⟨x, hm.1, hm.2⟩
    · simp only [finalizationFromTxLoop, hq, if_false]
      apply ih
      simp [hq] at h
      exact h

/-- C10: the transaction-decoding constructors enforce uniqueness of their
object kind: a transaction with more than one earned- or
accepted-notarization output yields a CPBaaSNotarization with
VERSION_INVALID and cleared proof roots, and a transaction with more than
one finalize-notarization or finalize-export output yields an invalid
CObjectFinalization with the reported finalization output index reset to -1
(modelled as none). -/
theorem tx_constructors_enforce_uniqueness (decode : Bytes → CPBaaSNotarization)
    (v0 : Nat) (tx : CTransaction) :
    (2 ≤ (tx.vout.filter isNotarizationOut).length →
       (CPBaaSNotarization.fromTransaction decode tx).1.nVersion = VERSION_INVALID ∧
       (CPBaaSNotarization.fromTransaction decode tx).1.proofRoots = []) ∧
    (2 ≤ (tx.vout.filter isFinalizationOut).length →
       (CObjectFinalization.fromTransaction v0 tx).1 = VERSION_INVALID ∧
       (CObjectFinalization.fromTransaction v0 tx).2.2 = none) := by
  constructor
  · intro h2
    exact notarizationFromTxLoop_two decode tx.vout 0 emptyNotarization none h2
  · intro h2
    exact finalizationFromTxLoop_two tx.vout 0 v0 none h2

/-- Witness for C10 at a transaction carrying two notarization outputs and
two finalization outputs. -/
theorem tx_constructors_enforce_uniqueness_witness :
    ((CPBaaSNotarization.fromTransaction decode10 tx10).1.nVersion = VERSION_INVALID ∧
     (CPBaaSNotarization.fromTransaction decode10 tx10).1.proofRoots = []) ∧
    ((CObjectFinalization.fromTransaction 1 tx10).1 = VERSION_INVALID ∧
     (CObjectFinalization.fromTransaction 1 tx10).2.2 = none) :=
  ⟨(tx_constructors_enforce_uniqueness decode10 1 tx10).1 (by decide),
   (tx_constructors_enforce_uniqueness decode10 1 tx10).2 (by decide)⟩

/-- C5: on the launch-clear import sub-phase at the height immediately
preceding the start block, with a minimum pre-conversion map configured and
covering all of the currency's currencies, accumulated pre-converted
reserves strictly below the canonicalized minimum force the currency-state
supply to 0 and set the refunding flag on both the new notarization and its
currency state; at or above the minimum, the launch-confirmed flag is set on
both instead.  The accumulated reserves are those of the reverted currency
state handed to the comparison, exactly as in the source. -/
theorem launchClear_refund_or_confirm (env : LifecycleEnv)
    (dest : CCurrencyDefinition) (isDefNot : Bool) (ch : Nat)
    (n : CPBaaSNotarization)
    (h1 : ch = pred32 dest.startBlock)
    (h2 : n.preLaunch = true)
    (h3 : n.launchCleared = false)
    (h4 : dest.minPreconvert.length = dest.currencies.length)
    (h5 : dest.minPreconvert ≠ [])
    (h6 : cvCanonical (cvFrom dest.currencies dest.minPreconvert) ≠ []) :
    (cvLT (cvCanonical (cvFrom dest.currencies
           (env.revertReservesAndSupply
             { n.currencyState with launchClear := true }).reserves))
         (cvCanonical (cvFrom dest.currencies dest.minPreconvert)) = true →
       (launchClearUpdate env dest isDefNot ch n).currencyState.supply = 0 ∧
       (launchClearUpdate env dest isDefNot ch n).refunding = true ∧
       (launchClearUpdate env dest isDefNot ch n).currencyState.refunding = true) ∧
    (cvLT (cvCanonical (cvFrom dest.currencies
           (env.revertReservesAndSupply
             { n.currencyState with launchClear := true }).reserves))
         (cvCanonical (cvFrom dest.currencies dest.minPreconvert)) = false →
       (launchClearUpdate env dest isDefNot ch n).launchConfirmed = true ∧
       (launchClearUpdate env dest isDefNot ch n).currencyState.launchConfirmed = true) := by
  have h5n : dest.minPreconvert.length ≠ 0 := by
    intro hh
    exact h5 (List.length_eq_zero.mp hh)
  have h6n : (cvCanonical (cvFrom dest.currencies dest.minPreconvert)).length ≠ 0 := by
    intro hh
    exact h6 (List.length_eq_zero.mp hh)
  have hA : (ch == pred32 dest.startBlock && n.preLaunch) = true := by
    rw [h1, h2]
    simp
  have hB : ¬(n.launchCleared = true) := by simp [h3]
  have hg0 : (dest.minPreconvert.length != 0 &&
      (dest.minPreconvert.length == dest.currencies.length)) = true := by
    rw [Bool.and_eq_true, bne_iff_ne, beq_iff_eq]
    exact ⟨h5n, h4⟩
  constructor
  · intro hlt
    have hgate : ((cvCanonical (cvFrom dest.currencies dest.minPreconvert)).length != 0 &&
        cvLT (cvCanonical (cvFrom dest.currencies
               (env.revertReservesAndSupply
                 { n.currencyState with launchClear := true }).reserves))
             (cvCanonical (cvFrom dest.currencies dest.minPreconvert))) = true := by
      rw [Bool.and_eq_true, bne_iff_ne]
      exact ⟨h6n, hlt⟩
    unfold launchClearUpdate
    rw [if_pos hA, if_neg hB]
    simp only [hg0, if_true]
    rw [if_pos hgate]
    exact ⟨rfl, rfl, rfl⟩
  · intro hlt
    have hgate : ¬(((cvCanonical (cvFrom dest.currencies dest.minPreconvert)).length != 0 &&
        cvLT (cvCanonical (cvFrom dest.currencies
               (env.revertReservesAndSupply
                 { n.currencyState with launchClear := true }).reserves))
             (cvCanonical (cvFrom dest.currencies dest.minPreconvert))) = true) := by
      rw [Bool.and_eq_true, bne_iff_ne]
      rintro ⟨-, hc⟩
      rw [hlt] at hc
      exact Bool.false_ne_true hc
    unfold launchClearUpdate
    rw [if_pos hA, if_neg hB]
    simp only [hg0, if_true]
    rw [if_neg hgate]
    exact ⟨rfl, rfl⟩

/-- Witness for C5 at the spec's example: reserves 900 against minimum 1000
at launch-clear height 99 force supply 0 and the refunding flags; reserves
1100 set the launch-confirmed flags. -/
theorem launchClear_refund_or_confirm_witness :
    ((launchClearUpdate envL5 destC5 false 99 nC5).currencyState.supply = 0 ∧
     (launchClearUpdate envL5 destC5 false 99 nC5).refunding = true ∧
     (launchClearUpdate envL5 destC5 false 99 nC5).currencyState.refunding = true) ∧
    ((launchClearUpdate envL5 destC5 false 99
        { nC5 with currencyState := { csC5 with reserves := [1100] } }).launchConfirmed = true ∧
     (launchClearUpdate envL5 destC5 false 99
        { nC5 with currencyState := { csC5 with reserves := [1100] } }).currencyState.launchConfirmed = true) :=
  ⟨(launchClear_refund_or_confirm envL5 destC5 false 99 nC5
      (by decide) rfl rfl rfl (by decide) (by decide)).1 (by decide),
   (launchClear_refund_or_confirm envL5 destC5 false 99
      { nC5 with currencyState := { csC5 with reserves := [1100] } }
      (by decide) rfl rfl rfl (by decide) (by decide)).2 (by decide)⟩

/-- C6: in NextNotarizationInfo, every pre-conversion transfer in the export
batch whose last export height is at or after the destination currency's
start block, or whose first-currency value net of the conversion fee added
to the current reserves would exceed the configured maximum pre-conversion
map, is replaced in place by its refund form, which keeps its full value and
is marked as a refund to be returned to the sender. -/
theorem preconversion_refund (env : LifecycleEnv)
    (src dest : CCurrencyDefinition) (leh ch : Nat)
    (trs : List CReserveTransfer) (prev : CPBaaSNotarization)
    (i : Nat) (rt : CReserveTransfer)
    (href : prev.currencyState.refunding = false)
    (hi : trs.get? i = some rt)
    (hpre : rt.isPreConversionT = true)
    (hcond : dest.startBlock ≤ leh ∨
             (dest.maxPreconvert ≠ [] ∧
              cvExceeds (cvAdd (cvFrom dest.currencies prev.currencyState.reserves)
                               [(rt.firstCurrencyID,
                                 rt.firstValue - env.conversionFee rt.firstValue)])
                        (cvFrom dest.currencies dest.maxPreconvert) = true)) :
    (CPBaaSNotarization.nextNotarizationInfo env src dest leh ch trs prev).transfers.get? i
      = some rt.getRefundTransfer ∧
    rt.getRefundTransfer.isRefund = true ∧
    rt.getRefundTransfer.firstValue = rt.firstValue := by
  have htr : (CPBaaSNotarization.nextNotarizationInfo env src dest leh ch trs prev).transfers
      = trs.map (mutateExportTransfer env dest prev.currencyState leh) := by
    simp only [CPBaaSNotarization.nextNotarizationInfo]
    rw [if_neg (by simp [href])]
  refine ⟨?_, rfl, rfl⟩
  rw [htr, List.get?_map, hi]
  simp only [Option.map_some']
  congr 1
  simp only [mutateExportTransfer, hpre, if_true]
  by_cases hs : dest.startBlock ≤ leh
  · simp [hs]
  · rcases hcond with h | ⟨hmax, hex⟩
    · exact absurd h hs
    · have hlen : dest.maxPreconvert.length ≠ 0 := by
        intro hh
        exact hmax (List.length_eq_zero.mp hh)
      simp [hs, hlen, hex]

/-- Witness for C6 at the spec's example: a pre-conversion of 500 with
existing reserves 800 against a maximum of 1000 is converted to its refund
form. -/
theorem preconversion_refund_witness :
    (CPBaaSNotarization.nextNotarizationInfo envL5 destC5 destC6 50 40 [rtC6] prevC6).transfers.get? 0
      = some rtC6.getRefundTransfer ∧
    rtC6.getRefundTransfer.isRefund = true ∧
    rtC6.getRefundTransfer.firstValue = rtC6.firstValue :=
  preconversion_refund envL5 destC5 destC6 50 40 [rtC6] prevC6 0 rtC6
    rfl rfl rfl (Or.inr ⟨by decide, by decide⟩)

/-- Lookup of an absent key yields none. -/
theorem lookupA_none_of_not_contains {α : Type} (l : List (Nat × α)) (k : Nat)
    (h : containsA l k = false) : lookupA l k = none := by
  unfold containsA at h
  unfold lookupA
  cases hf : l.find? (fun p => p.1 == k) with
  | none => rfl
  | some v => rw [hf] at h; simp at h

/-- Lookup after a fresh map insert yields the inserted value. -/
theorem lookupA_insert_self {α : Type} (l : List (Nat × α)) (k : Nat) (v : α)
    (h : containsA l k = false) : lookupA (insertA l k v) k = some v := by
  unfold insertA
  rw [h]
  simp only [Bool.false_eq_true, if_false]
  induction l with
  | nil => simp [lookupA]
  | cons p rest ih =>
    unfold containsA at h ih
    unfold lookupA at ih ⊢
    cases hp : (p.1 == k) with
    | true => simp [List.find?_cons, hp] at h
    | false =>
      simp only [List.cons_append, List.find?_cons, hp] at h ⊢
      exact ih (by simpa using h)

/-- If the notary-signature loop passes, every signature in the evidence is
keyed by an authorized notary and verifies SIGNATURE_COMPLETE. -/
theorem checkNotarySignatures_ok (env : NodeEnv) (notaries : List Nat)
    (systemID objHash : Nat) :
    ∀ sigs, checkNotarySignatures env notaries systemID objHash sigs = none →
      ∀ p ∈ sigs, notaries.contains p.1 = true ∧
        env.checkSignature p.2 (env.lookupIdentity p.1) systemID objHash = SigVer.complete := by
  intro sigs
  induction sigs with
  | nil => intro _ p hp; simp at hp
  | cons q rest ih =>
    intro h p hp
    obtain ⟨sid, sv⟩ := q
    simp only [checkNotarySignatures] at h
    split at h
    · simp at h
    · split at h
      · simp at h
      · split at h
        · simp at h
        · cases hp with
          | head =>
            constructor
            · rename_i hc _ _
              simpa using hc
            · rename_i hs
              simpa using hs
          | tail _ hmem => exact ih h p hmem
theorem lookupA_isSome_of_contains {α : Type} (l : List (Nat × α)) (k : Nat)
    (h : containsA l k = true) : ∃ v, lookupA l k = some v := by
  unfold containsA at h
  unfold lookupA
  cases hf : l.find? (fun p => p.1 == k) with
  | none => rw [hf] at h; simp at h
  | some v => exact ⟨v.2, rfl⟩

theorem createAccepted_ok_facts (env : NodeEnv) (es : CCurrencyDefinition)
    (earned : CPBaaSNotarization) (ev : CNotaryEvidence) (m : Nat)
    (outs : List TxBuilderOp)
    (h : CPBaaSNotarization.createAcceptedNotarization env es earned ev m = Except.ok outs) :
    ev.signatures ≠ [] ∧
    checkNotarySignatures env es.notaries es.idOf (env.hashNotarization earned) ev.signatures = none ∧
    (∃ cnd, env.getNotarizationData es.idOf = some cnd ∧
       ∃ r, lastConfirmedSelfRoot cnd env.selfID = some r ∧
         r.rootHeight < earnedSelfRootHeight earned env.selfID) ∧
    finalizationFlags outs =
      (if es.notarizationProtocol != NOTARIZATION_NOTARY_CHAINID then
         [decide (es.notaries.length ≤ ev.signatures.length)]
       else []) := by
  simp only [CPBaaSNotarization.createAcceptedNotarization] at h
  split at h
  · exact absurd h (by simp)
  rename_i hne
  split at h
  · exact absurd h (by simp)
  rename_i newN0 hmirror
  by_cases hm : earned.isMirror = true
  · rw [if_pos hm] at hmirror
    exact absurd hmirror (by simp)
  rw [if_neg hm] at hmirror
  unfold CPBaaSNotarization.setMirror at hmirror
  rw [if_neg hm] at hmirror
  have hpr : newN0.proofRoots = earned.proofRoots := by
    cases hmirror
    rfl
  have hone : ev.signatures ≠ [] := by
    intro hq
    apply hne
    simp [hq]
  by_cases hc : containsA newN0.proofRoots env.selfID = true
  · simp only [hc, if_true] at h
    split at h
    · exact absurd h (by simp)
    rename_i cnd hcnd
    split at h
    · exact absurd h (by simp)
    rename_i hroot
    simp only [Bool.or_eq_true, Bool.not_eq_true, decide_eq_true_eq, not_or] at hroot
    obtain ⟨⟨hconf, hcont⟩, hlt⟩ := hroot
    simp only [Bool.not_eq_false'] at hconf hcont
    obtain ⟨r, hr⟩ := lookupA_isSome_of_contains _ _ hcont
    have hlast : lastConfirmedSelfRoot cnd env.selfID = some r := by
      unfold lastConfirmedSelfRoot
      rw [if_pos hconf]
      exact hr
    rw [hr] at hlt
    simp only [Option.getD_some] at hlt
    have hheight : r.rootHeight < earnedSelfRootHeight earned env.selfID := by
      unfold earnedSelfRootHeight
      rw [← hpr]
      omega
    split at h
    · exact absurd h (by simp)
    rename_i hsigs
    split at h
    · exact absurd h (by simp)
    rename_i hval
    split at h
    · exact absurd h (by simp)
    rename_i hcur
    split at h
    · exact absurd h (by simp)
    rename_i hcs
    split at h
    · exact absurd h (by simp)
    rename_i hps
    split at h
    · exact absurd h (by simp)
    rename_i lastFound hlastun
    split at h
    · rename_i hprot
      injection h with hX
      subst hX
      refine ⟨hone, hsigs, ⟨cnd, hcnd, r, hlast, hheight⟩, ?_⟩
      rw [if_pos hprot]
      by_cases hth : es.notaries.length ≤ ev.signatures.length
      · simp [finalizationFlags, hth]
      · simp [finalizationFlags, hth]
    · rename_i hprot
      injection h with hX
      subst hX
      refine ⟨hone, hsigs, ⟨cnd, hcnd, r, hlast, hheight⟩, ?_⟩
      rw [if_neg hprot]
      simp [finalizationFlags]
  · have hcf : containsA newN0.proofRoots env.selfID = false := Bool.eq_false_iff.mpr hc
    simp only [hcf, Bool.false_eq_true, if_false] at h
    simp only [lookupA_insert_self newN0.proofRoots env.selfID invalidProofRoot hcf,
               Option.getD_some] at h
    split at h
    · exact absurd h (by simp)
    rename_i cnd hcnd
    rw [if_pos (by simp [invalidProofRoot])] at h
    exact absurd h (by simp)

/-- C2: CreateAcceptedNotarization fails with an error, adding nothing to
the transaction being built, whenever the supplied notary evidence contains
no signatures, or any signature is keyed by an identity outside the external
system's authorized notary set, or any signature fails to verify
SIGNATURE_COMPLETE over the earned notarization's canonical hash, or the
earned notarization's proof root for this chain is not strictly later than
the proof root height for this chain recorded in the last confirmed
notarization. -/
theorem createAccepted_fails (env : NodeEnv) (es : CCurrencyDefinition)
    (earned : CPBaaSNotarization) (ev : CNotaryEvidence) (m : Nat)
    (hbad : ev.signatures = [] ∨
            (∃ p ∈ ev.signatures, es.notaries.contains p.1 = false) ∨
            (∃ p ∈ ev.signatures,
               env.checkSignature p.2 (env.lookupIdentity p.1) es.idOf
                 (env.hashNotarization earned) ≠ SigVer.complete) ∨
            (∀ cnd, env.getNotarizationData es.idOf = some cnd →
               ∀ r, lastConfirmedSelfRoot cnd env.selfID = some r →
                 earnedSelfRootHeight earned env.selfID ≤ r.rootHeight)) :
    isErrorResult (CPBaaSNotarization.createAcceptedNotarization env es earned ev m) = true := by
  cases hres : CPBaaSNotarization.createAcceptedNotarization env es earned ev m with
  | error e => rfl
  | ok outs =>
    exfalso
    obtain ⟨hone, hsigs, ⟨cnd, hcnd, r, hr, hlt⟩, -⟩ :=
      createAccepted_ok_facts env es earned ev m outs hres
    rcases hbad with hb | ⟨p, hp, hb⟩ | ⟨p, hp, hb⟩ | hb
    · exact hone hb
    · have hgood := (checkNotarySignatures_ok env es.notaries es.idOf
        (env.hashNotarization earned) ev.signatures hsigs p hp).1
      rw [hb] at hgood
      exact Bool.false_ne_true hgood
    · exact hb (checkNotarySignatures_ok env es.notaries es.idOf
        (env.hashNotarization earned) ev.signatures hsigs p hp).2
    · have := hb cnd hcnd r hr
      omega

/-- Witness for C2: evidence with no signatures makes the call fail. -/
theorem createAccepted_fails_witness :
    isErrorResult (CPBaaSNotarization.createAcceptedNotarization envC7 extSysC7
      earnedC7 evEmptyC2 0) = true :=
  createAccepted_fails envC7 extSysC7 earnedC7 evEmptyC2 0 (Or.inl rfl)

/-- C7 (amended): when CreateAcceptedNotarization succeeds for an external
system whose notarization protocol is not the single-fixed-notary-chain
protocol, it appends exactly one finalization output, and that output is
pre-marked CONFIRMED if and only if the evidence carries at least as many
signature entries as there are authorized notaries of the external system:
the source compares the signature count against the full notary-set size,
not against minNotariesConfirm. -/
theorem createAccepted_finalization_flag (env : NodeEnv) (es : CCurrencyDefinition)
    (earned : CPBaaSNotarization) (ev : CNotaryEvidence) (m : Nat)
    (outs : List TxBuilderOp)
    (hok : CPBaaSNotarization.createAcceptedNotarization env es earned ev m = Except.ok outs)
    (hprot : es.notarizationProtocol ≠ NOTARIZATION_NOTARY_CHAINID) :
    finalizationFlags outs = [decide (es.notaries.length ≤ ev.signatures.length)] := by
  have hf := (createAccepted_ok_facts env es earned ev m outs hok).2.2.2
  rw [if_pos (bne_iff_ne.mpr hprot)] at hf
  exact hf

/-- Witness for the amended C7 at the concrete successful run. -/
theorem createAccepted_finalization_flag_witness :
    finalizationFlags
        (match CPBaaSNotarization.createAcceptedNotarization envC7 extSysC7 earnedC7 evC7 0 with
         | .ok o => o
         | .error _ => []) =
      [decide (extSysC7.notaries.length ≤ evC7.signatures.length)] :=
  createAccepted_finalization_flag envC7 extSysC7 earnedC7 evC7 0 _ rfl (by decide)
